import Mathlib

/-!
Verification development for `src/convertGlacier.py` (S3Transition).

The script migrates S3 objects out of the GLACIER / GLACIER_IR storage
classes into INTELLIGENT_TIERING.  The shallow embedding below translates
the pure control flow of the script into Lean; all interactions with the
S3 store (listing pages, `restore_object`, `head_object`, `copy_object`)
are modelled as oracle functions supplied as parameters, exactly at the
granularity at which the script consumes their results.
-/

set_option maxHeartbeats 1600000

namespace ConvertGlacier

/-- The `StorageClass` enum of the script (lines 10-12): the two tiers the
script acts on. -/
inductive StorageClass where
  | GLACIER
  | GLACIER_IR
deriving DecidableEq

/-- Python `StorageClass.value`: the string value of the enum member. -/
def StorageClass.value : StorageClass → String
  | .GLACIER => "GLACIER"
  | .GLACIER_IR => "GLACIER_IR"

/-- Python `StorageClass[name]` lookup by member name (line 197); a missing
name raises `KeyError`, modelled as `none`. -/
def StorageClass.fromName : String → Option StorageClass
  | "GLACIER" => some .GLACIER
  | "GLACIER_IR" => some .GLACIER_IR
  | _ => none

/-- The `StorageConfig` class (lines 14-17): one tier policy. -/
structure StorageConfig where
  storage_class : StorageClass
  convert_to_intelligent : Bool
deriving DecidableEq

/-- The `ConversionStats` class (lines 19-24): the four per-tier counters. -/
structure ConversionStats where
  found : Nat
  converted : Nat
  failed : Nat
  skipped : Nat
deriving DecidableEq

/-- Freshly constructed `ConversionStats()` (lines 20-24). -/
def ConversionStats.init : ConversionStats := ⟨0, 0, 0, 0⟩

/-- Total of the three outcome counters of a tier. -/
def ConversionStats.outcomes (s : ConversionStats) : Nat :=
  s.converted + s.failed + s.skipped

/-- The work-item dict `{'key': …, 'convert_to_intelligent': …}` built at
classification time (lines 102-105). -/
structure WorkItem where
  key : String
  convert_to_intelligent : Bool
deriving DecidableEq

/-- One entry of a `list_objects_v2` page: its key, and its
`'StorageClass'` field when present (the field may be absent, line 93). -/
structure ListedObj where
  key : String
  storageClass : Option String
deriving DecidableEq

/-- Per-tier statistics dictionary `stats` (line 81).  The Python dict holds
only the configured tiers; unconfigured tiers are modelled as holding the
initial all-zero record, which the script never reads. -/
abbrev StatsMap := StorageClass → ConversionStats

/-- Per-tier work-list dictionary `objects_to_process` (line 82). -/
abbrev WorkMap := StorageClass → List WorkItem

/-- Update of a single entry of the stats dictionary. -/
def setStats (m : StatsMap) (t : StorageClass) (s : ConversionStats) : StatsMap :=
  fun u => if u = t then s else m u

/-- Update of a single entry of the work-list dictionary. -/
def setWork (m : WorkMap) (t : StorageClass) (l : List WorkItem) : WorkMap :=
  fun u => if u = t then l else m u

/-- Initial stats dictionary: every tier at `ConversionStats()` (line 81). -/
def initStats : StatsMap := fun _ => ConversionStats.init

/-- Initial work-list dictionary: every tier at `[]` (line 82). -/
def initWork : WorkMap := fun _ => []

/-- Classification of one listed object (lines 91-107): an object with no
`'StorageClass'` field is skipped; otherwise the first configured policy
whose tier value equals the object's storage class (the inner
`for config in storage_configs … break` loop) receives one `found`
increment and one appended work item; with no match the object is
ignored. -/
def classifyObj (configs : List StorageConfig) (acc : StatsMap × WorkMap)
    (obj : ListedObj) : StatsMap × WorkMap :=
  match obj.storageClass with
  | none => acc
  | some sc =>
    match configs.find? (fun c => sc == c.storage_class.value) with
    | none => acc
    | some c =>
      (setStats acc.1 c.storage_class
        { acc.1 c.storage_class with found := (acc.1 c.storage_class).found + 1 },
       setWork acc.2 c.storage_class
        (acc.2 c.storage_class ++
          [{ key := obj.key, convert_to_intelligent := c.convert_to_intelligent }]))

/-- The classification pass over the listed objects (the paginator loop of
lines 85-107), threaded over an accumulator. -/
def classifyRun (configs : List StorageConfig) :
    List ListedObj → StatsMap × WorkMap → StatsMap × WorkMap
  | [], acc => acc
  | o :: os, acc => classifyRun configs os (classifyObj configs acc o)

/-- Stats snapshots of the classification pass: the stats dictionary after
each listed object has been handled. -/
def classifyTrace (configs : List StorageConfig) :
    List ListedObj → StatsMap × WorkMap → List StatsMap
  | [], _ => []
  | o :: os, acc =>
    (classifyObj configs acc o).1 :: classifyTrace configs os (classifyObj configs acc o)

/-- The function `process_glacier_objects` (lines 75-117).  `listing` is the
sequence of objects the paginator yields before either finishing or (when
`listFails` is true) raising; the `except` clause at lines 115-117 then
returns the empty dict together with the stats accumulated so far, instead
of the partially built work lists. -/
def process_glacier_objects (configs : List StorageConfig) (listing : List ListedObj)
    (listFails : Bool) : WorkMap × StatsMap :=
  let r := classifyRun configs listing (initStats, initWork)
  if listFails then (initWork, r.1) else (r.2, r.1)

/-- Outcome of one `restore_object` call as the script distinguishes them
(lines 127-144): plain success, the `RestoreAlreadyInProgress` client
error, or any other error. -/
inductive RestoreResult where
  | success
  | alreadyInProgress
  | otherError
deriving DecidableEq

/-- True when the script keeps the item for polling: a fresh success or an
already-in-progress response (lines 137 and 142). -/
def RestoreResult.ok : RestoreResult → Bool
  | .otherError => false
  | _ => true

/-- The function `initiate_restore_for_glacier_objects` (lines 119-146):
issue a restore request per item; success and `RestoreAlreadyInProgress`
append the item to the returned list, any other client error drops it. -/
def initiate_restore_for_glacier_objects (restore : String → RestoreResult) :
    List WorkItem → List WorkItem
  | [] => []
  | o :: os =>
    match restore o.key with
    | .success => o :: initiate_restore_for_glacier_objects restore os
    | .alreadyInProgress => o :: initiate_restore_for_glacier_objects restore os
    | .otherError => initiate_restore_for_glacier_objects restore os

/-- Result of one `head_object` call as consumed by the script
(lines 156-161): either a response, with whether a `'Restore'` field is
present and whether it contains `ongoing-request="false"`, or an
exception. -/
inductive HeadResult where
  | ok (restorePresent : Bool) (ongoingDone : Bool)
  | error
deriving DecidableEq

/-- The condition of line 157: the item counts as restored exactly when the
head succeeded, the `'Restore'` field is present and reports
`ongoing-request="false"`; an exception is caught and the item is not
added (lines 160-161). -/
def headRestored : HeadResult → Bool
  | .ok p d => p && d
  | .error => false

/-- The function `check_restore_status` (lines 148-163): return the items
whose head reports a finished restore, in input order. -/
def check_restore_status (head : String → HeadResult) (objs : List WorkItem) :
    List WorkItem :=
  objs.filter (fun o => headRestored (head o.key))

/-- One `copy_object` call as issued at lines 177-183. -/
structure CopyCall where
  bucket : String
  key : String
  copySourceBucket : String
  copySourceKey : String
  storageClass : String
  metadataDirective : String
deriving DecidableEq

/-- The `copy_object` invocation of lines 177-183 for one item: destination
`(bucket, key)`, `CopySource` the same `(bucket, key)`, storage class
`INTELLIGENT_TIERING`, `MetadataDirective='COPY'`. -/
def copyCallFor (bucket : String) (o : WorkItem) : CopyCall :=
  { bucket := bucket, key := o.key, copySourceBucket := bucket, copySourceKey := o.key,
    storageClass := "INTELLIGENT_TIERING", metadataDirective := "COPY" }

/-- The per-item body of `convert_to_intelligent_tiering` (lines 169-188):
a false flag increments `skipped`; otherwise the copy is issued and
`converted` or `failed` is incremented according to the oracle
`copyOk`. -/
def convertStep (copyOk : String → Bool) (st : ConversionStats) (o : WorkItem) :
    ConversionStats :=
  if o.convert_to_intelligent = false then { st with skipped := st.skipped + 1 }
  else if copyOk o.key then { st with converted := st.converted + 1 }
  else { st with failed := st.failed + 1 }

/-- The function `convert_to_intelligent_tiering` (lines 165-188), as its
effect on the tier's stats. -/
def convert_to_intelligent_tiering (copyOk : String → Bool) :
    List WorkItem → ConversionStats → ConversionStats
  | [], st => st
  | o :: os, st => convert_to_intelligent_tiering copyOk os (convertStep copyOk st o)

/-- Stats snapshots of `convert_to_intelligent_tiering`: the stats record
after each item of the batch has been handled. -/
def convertSnaps (copyOk : String → Bool) :
    List WorkItem → ConversionStats → List ConversionStats
  | [], _ => []
  | o :: os, st => convertStep copyOk st o :: convertSnaps copyOk os (convertStep copyOk st o)

/-- The `copy_object` calls `convert_to_intelligent_tiering` issues for a
batch: one per item whose flag is true (line 170 skips the others before
the call site at line 177). -/
def convertCalls (bucket : String) : List WorkItem → List CopyCall
  | [] => []
  | o :: os =>
    if o.convert_to_intelligent then copyCallFor bucket o :: convertCalls bucket os
    else convertCalls bucket os

/-- Python `config_string.split("#")` (line 192), as structural recursion
over the characters: split on every `#`, keeping empty pieces. -/
def splitHashAux : List Char → List Char → List String
  | [], cur => [String.mk cur.reverse]
  | c :: cs, cur =>
    if c = '#' then String.mk cur.reverse :: splitHashAux cs []
    else splitHashAux cs (c :: cur)

/-- Python `str.split("#")` on a whole string. -/
def pySplit (s : String) : List String := splitHashAux s.data []

/-- Python `str.strip()` (line 195): drop whitespace from both ends. -/
def pyStrip (s : String) : String :=
  String.mk (((s.data.dropWhile Char.isWhitespace).reverse.dropWhile Char.isWhitespace).reverse)

/-- The loop body of `create_storage_configs` (lines 194-202): each part is
stripped and looked up in the `StorageClass` enum; a hit appends a config
with `convert_to_intelligent=True` (line 198), a `KeyError` skips the
part. -/
def configsOfParts : List String → List StorageConfig
  | [] => []
  | p :: ps =>
    match StorageClass.fromName (pyStrip p) with
    | some sc => { storage_class := sc, convert_to_intelligent := true } :: configsOfParts ps
    | none => configsOfParts ps

/-- The function `create_storage_configs` (lines 190-204). -/
def create_storage_configs (s : String) : List StorageConfig :=
  configsOfParts (pySplit s)

/-- Observable actions of one round of the restore loop in `main`
(lines 242-254): the status poll over the pending items, the
`time.sleep(check_interval)`, and the conversion of the restored items. -/
inductive Event where
  | poll (keys : List String)
  | wait (interval : Nat)
  | convert (keys : List String)
deriving DecidableEq

/-- Result of running the `while objects_to_restore` loop of `main`
(lines 242-254): the pending list when the loop stopped (empty unless the
fuel ran out), the GLACIER stats, the events of each executed round in
order, the number of executed rounds, the stats snapshots after each
conversion, and the copy calls issued. -/
structure LoopResult where
  pending : List WorkItem
  stats : ConversionStats
  events : List (List Event)
  rounds : Nat
  snaps : List ConversionStats
  calls : List CopyCall
deriving DecidableEq

/-- The `while objects_to_restore` loop of `main` (lines 242-254), with a
fuel bound standing in for the unbounded iteration of the script.  Each
round, in the script's order: poll every pending item
(`check_restore_status`), drop the restored ones from the pending list by
value (`obj not in restored_objects`, line 246), sleep when items remain
pending (lines 248-250), and only then convert the restored items
(lines 252-254).  `head r k` is the head-object outcome for key `k` on
poll round `r` (rounds numbered from the initial value of `r` upward). -/
def mainLoop (bucket : String) (head : Nat → String → HeadResult)
    (copyOk : String → Bool) (check_interval : Nat) :
    Nat → Nat → List WorkItem → ConversionStats → LoopResult
  | 0, _, pending, st => ⟨pending, st, [], 0, [], []⟩
  | _ + 1, _, [], st => ⟨[], st, [], 0, [], []⟩
  | fuel + 1, r, o :: os, st =>
    let pending := o :: os
    let restored := check_restore_status (head r) pending
    let stillPending := pending.filter (fun x => !decide (x ∈ restored))
    let st1 := if restored.isEmpty then st
      else convert_to_intelligent_tiering copyOk restored st
    let rest := mainLoop bucket head copyOk check_interval fuel (r + 1) stillPending st1
    ⟨rest.pending, rest.stats,
      (Event.poll (pending.map (fun x => x.key)) ::
        (if stillPending.isEmpty then [] else [Event.wait check_interval]) ++
        (if restored.isEmpty then []
         else [Event.convert (restored.map (fun x => x.key))])) :: rest.events,
      rest.rounds + 1,
      convertSnaps copyOk restored st ++ rest.snaps,
      (if restored.isEmpty then [] else convertCalls bucket restored) ++ rest.calls⟩

/-- Head-object stub of the single-item polling scenario: the restore is
reported finished from the `n`-th poll round on and unfinished before. -/
def stubHead (n : Nat) : Nat → String → HeadResult :=
  fun r _ => if n ≤ r then HeadResult.ok true true else HeadResult.ok true false

/-- Result of one whole run of `main` (lines 206-268): the classification
output, the final stats dictionary, the items kept for polling after the
restore requests, the items dropped by restore-request errors, the loop
result, all copy calls, and the stats-dictionary snapshots after each
counter mutation of the run. -/
structure RunResult where
  work : WorkMap
  stats : StatsMap
  pendingInit : List WorkItem
  droppedRestore : List WorkItem
  loop : LoopResult
  calls : List CopyCall
  snaps : List StatsMap

/-- Items of a tier dropped by per-object restore-request errors: for
GLACIER the items whose `restore_object` failed with an error other than
`RestoreAlreadyInProgress`; GLACIER_IR items never issue restore
requests. -/
def RunResult.droppedFor (r : RunResult) : StorageClass → List WorkItem
  | .GLACIER => r.droppedRestore
  | .GLACIER_IR => []

/-- The body of `main` after configuration loading (lines 224-254):
classify the listing, convert the GLACIER_IR work list directly, issue
restore requests for the GLACIER work list and run the polling loop.
`check_interval` is the constant 3600 of line 215.  The guards
`if glacier_ir_objects:` and `if glacier_objects:` of lines 231 and 238
are not modelled separately because each guarded call is the identity on
an empty list. -/
def runMain (bucket : String) (configs : List StorageConfig) (listing : List ListedObj)
    (listFails : Bool) (restore : String → RestoreResult)
    (head : Nat → String → HeadResult) (copyOk : String → Bool) (fuel : Nat) :
    RunResult :=
  let pr := process_glacier_objects configs listing listFails
  let work := pr.1
  let stats0 := pr.2
  let classSnaps := classifyTrace configs listing (initStats, initWork)
  let irObjs := work StorageClass.GLACIER_IR
  let stats1 := setStats stats0 StorageClass.GLACIER_IR
    (convert_to_intelligent_tiering copyOk irObjs (stats0 StorageClass.GLACIER_IR))
  let irSnaps := (convertSnaps copyOk irObjs (stats0 StorageClass.GLACIER_IR)).map
    (setStats stats0 StorageClass.GLACIER_IR)
  let gObjs := work StorageClass.GLACIER
  let pendingInit := initiate_restore_for_glacier_objects restore gObjs
  let lr := mainLoop bucket head copyOk 3600 fuel 1 pendingInit (stats1 StorageClass.GLACIER)
  { work := work
    stats := setStats stats1 StorageClass.GLACIER lr.stats
    pendingInit := pendingInit
    droppedRestore := gObjs.filter (fun o => !(restore o.key).ok)
    loop := lr
    calls := convertCalls bucket irObjs ++ lr.calls
    snaps := initStats ::
      (classSnaps ++ irSnaps ++ lr.snaps.map (setStats stats1 StorageClass.GLACIER)) }

/-- Invariant of the classification accumulator: no outcome counter has
been touched and each tier's `found` equals the length of its work
list. -/
def ClassInv (acc : StatsMap × WorkMap) : Prop :=
  ∀ t, (acc.1 t).converted = 0 ∧ (acc.1 t).failed = 0 ∧ (acc.1 t).skipped = 0 ∧
    (acc.1 t).found = (acc.2 t).length

/-- The round shape the script produces (lines 242-254): the poll first,
then the sleep when items remain pending, then the conversion of the
restored items. -/
def roundShape : List Event → Bool
  | [.poll _] => true
  | [.poll _, .wait _] => true
  | [.poll _, .convert _] => true
  | [.poll _, .wait _, .convert _] => true
  | _ => false

/-- The round shape the specification describes: the poll first, then the
conversion of the restored items, and only then the sleep. -/
def claimRoundShape : List Event → Bool
  | [.poll _] => true
  | [.poll _, .wait _] => true
  | [.poll _, .convert _] => true
  | [.poll _, .convert _, .wait _] => true
  | _ => false

/-! General list helpers used by the counter accounting. -/

theorem length_filter_add_length_filter_not {α : Type} (p : α → Bool) (l : List α) :
    (l.filter p).length + (l.filter (fun a => !p a)).length = l.length := by
  induction l with
  | nil => rfl
  | cons a l ih =>
    by_cases h : p a = true <;>
      simp [List.filter_cons, h] <;> omega

theorem filter_not_mem_filter {α : Type} [DecidableEq α] (p : α → Bool) (l : List α) :
    l.filter (fun a => !decide (a ∈ l.filter p)) = l.filter (fun a => !p a) := by
  apply List.filter_congr
  intro a ha
  by_cases hpa : p a = true
  · simp [List.mem_filter, ha, hpa]
  · simp [List.mem_filter, hpa]

/-! Facts about `convert_to_intelligent_tiering` and its instrumentation. -/

theorem convert_found (copyOk : String → Bool) (objs : List WorkItem)
    (st : ConversionStats) :
    (convert_to_intelligent_tiering copyOk objs st).found = st.found := by
  induction objs generalizing st with
  | nil => rfl
  | cons o os ih =>
    rw [convert_to_intelligent_tiering, ih]
    unfold convertStep
    by_cases h : o.convert_to_intelligent = false <;>
      by_cases hc : copyOk o.key = true <;> simp [h, hc]

theorem convert_outcomes (copyOk : String → Bool) (objs : List WorkItem)
    (st : ConversionStats) :
    (convert_to_intelligent_tiering copyOk objs st).outcomes
      = st.outcomes + objs.length := by
  induction objs generalizing st with
  | nil => simp [convert_to_intelligent_tiering]
  | cons o os ih =>
    rw [convert_to_intelligent_tiering, ih]
    unfold convertStep ConversionStats.outcomes
    by_cases h : o.convert_to_intelligent = false <;>
      by_cases hc : copyOk o.key = true <;> simp [h, hc] <;> omega

theorem convert_skipped_count (copyOk : String → Bool) (objs : List WorkItem)
    (st : ConversionStats) :
    (convert_to_intelligent_tiering copyOk objs st).skipped
      = st.skipped + objs.countP (fun o => !o.convert_to_intelligent) := by
  induction objs generalizing st with
  | nil => simp [convert_to_intelligent_tiering]
  | cons o os ih =>
    rw [convert_to_intelligent_tiering, ih]
    unfold convertStep
    by_cases h : o.convert_to_intelligent = false <;>
      by_cases hc : copyOk o.key = true <;>
        simp [h, hc, List.countP_cons] <;> omega

theorem convert_converted_count (copyOk : String → Bool) (objs : List WorkItem)
    (st : ConversionStats) :
    (convert_to_intelligent_tiering copyOk objs st).converted
      = st.converted + objs.countP (fun o => o.convert_to_intelligent && copyOk o.key) := by
  induction objs generalizing st with
  | nil => simp [convert_to_intelligent_tiering]
  | cons o os ih =>
    rw [convert_to_intelligent_tiering, ih]
    unfold convertStep
    by_cases h : o.convert_to_intelligent = false <;>
      by_cases hc : copyOk o.key = true <;>
        simp [h, hc, List.countP_cons] <;> omega

theorem convert_failed_count (copyOk : String → Bool) (objs : List WorkItem)
    (st : ConversionStats) :
    (convert_to_intelligent_tiering copyOk objs st).failed
      = st.failed + objs.countP (fun o => o.convert_to_intelligent && !copyOk o.key) := by
  induction objs generalizing st with
  | nil => simp [convert_to_intelligent_tiering]
  | cons o os ih =>
    rw [convert_to_intelligent_tiering, ih]
    unfold convertStep
    by_cases h : o.convert_to_intelligent = false <;>
      by_cases hc : copyOk o.key = true <;>
        simp [h, hc, List.countP_cons] <;> omega

theorem convertCalls_eq (bucket : String) (objs : List WorkItem) :
    convertCalls bucket objs
      = (objs.filter (fun o => o.convert_to_intelligent)).map (copyCallFor bucket) := by
  induction objs with
  | nil => rfl
  | cons o os ih =>
    rw [convertCalls]
    by_cases h : o.convert_to_intelligent = true <;> simp [h, List.filter_cons, ih]

theorem convertSnaps_mem (copyOk : String → Bool) (objs : List WorkItem)
    (st : ConversionStats) :
    ∀ s ∈ convertSnaps copyOk objs st,
      s.found = st.found ∧ s.outcomes ≤ st.outcomes + objs.length := by
  induction objs generalizing st with
  | nil => intro s hs; simp [convertSnaps] at hs
  | cons o os ih =>
    intro s hs
    rw [convertSnaps] at hs
    have hstep_found : (convertStep copyOk st o).found = st.found := by
      unfold convertStep
      by_cases h : o.convert_to_intelligent = false <;>
        by_cases hc : copyOk o.key = true <;> simp [h, hc]
    have hstep_out : (convertStep copyOk st o).outcomes = st.outcomes + 1 := by
      unfold convertStep ConversionStats.outcomes
      by_cases h : o.convert_to_intelligent = false <;>
        by_cases hc : copyOk o.key = true <;> simp [h, hc] <;> omega
    rcases List.mem_cons.mp hs with h | h
    · subst h
      refine ⟨hstep_found, ?_⟩
      rw [hstep_out, List.length_cons]
      omega
    · rcases ih (convertStep copyOk st o) s h with ⟨h1, h2⟩
      refine ⟨by rw [h1, hstep_found], ?_⟩
      rw [hstep_out] at h2
      rw [List.length_cons]
      omega

theorem convert_skipped_of_flags (copyOk : String → Bool) (objs : List WorkItem)
    (st : ConversionStats) (h : ∀ o ∈ objs, o.convert_to_intelligent = true) :
    (convert_to_intelligent_tiering copyOk objs st).skipped = st.skipped := by
  rw [convert_skipped_count]
  have : objs.countP (fun o => !o.convert_to_intelligent) = 0 := by
    rw [List.countP_eq_zero]
    intro o ho
    simp [h o ho]
  omega

theorem convertSnaps_skipped_of_flags (copyOk : String → Bool) (objs : List WorkItem)
    (st : ConversionStats) (h : ∀ o ∈ objs, o.convert_to_intelligent = true) :
    ∀ s ∈ convertSnaps copyOk objs st, s.skipped = st.skipped := by
  induction objs generalizing st with
  | nil => intro s hs; simp [convertSnaps] at hs
  | cons o os ih =>
    intro s hs
    rw [convertSnaps] at hs
    have hstep : (convertStep copyOk st o).skipped = st.skipped := by
      unfold convertStep
      have := h o (List.mem_cons_self o os)
      by_cases hc : copyOk o.key = true <;> simp [this, hc]
    rcases List.mem_cons.mp hs with hh | hh
    · subst hh; exact hstep
    · have := ih (convertStep copyOk st o) (fun x hx => h x (List.mem_cons_of_mem o hx)) s hh
      rw [this, hstep]

theorem convert_ite (copyOk : String → Bool) (l : List WorkItem) (st : ConversionStats) :
    (if l.isEmpty then st else convert_to_intelligent_tiering copyOk l st)
      = convert_to_intelligent_tiering copyOk l st := by
  cases l <;> simp [convert_to_intelligent_tiering]

/-! Facts about the classification pass. -/

theorem classInv_init : ClassInv (initStats, initWork) := by
  intro t
  simp [initStats, initWork, ConversionStats.init]

theorem classifyObj_inv (configs : List StorageConfig) (acc : StatsMap × WorkMap)
    (obj : ListedObj) (h : ClassInv acc) : ClassInv (classifyObj configs acc obj) := by
  cases hsc : obj.storageClass with
  | none => simpa [classifyObj, hsc] using h
  | some sc =>
    cases hf : configs.find? (fun c => sc == c.storage_class.value) with
    | none => simpa [classifyObj, hsc, hf] using h
    | some c =>
      intro t
      rcases h t with ⟨h1, h2, h3, h4⟩
      by_cases ht : t = c.storage_class
      · subst ht
        simp [classifyObj, hsc, hf, setStats, setWork, h1, h2, h3, h4]
      · simp [classifyObj, hsc, hf, setStats, setWork, ht, h1, h2, h3, h4]

theorem classifyRun_inv (configs : List StorageConfig) (listing : List ListedObj)
    (acc : StatsMap × WorkMap) (h : ClassInv acc) :
    ClassInv (classifyRun configs listing acc) := by
  induction listing generalizing acc with
  | nil => exact h
  | cons o os ih =>
    rw [classifyRun]
    exact ih _ (classifyObj_inv configs acc o h)

theorem classifyTrace_zero (configs : List StorageConfig) (listing : List ListedObj)
    (acc : StatsMap × WorkMap) (h : ClassInv acc) :
    ∀ m ∈ classifyTrace configs listing acc,
      ∀ t, (m t).converted = 0 ∧ (m t).failed = 0 ∧ (m t).skipped = 0 := by
  induction listing generalizing acc with
  | nil => intro m hm; simp [classifyTrace] at hm
  | cons o os ih =>
    intro m hm
    rw [classifyTrace] at hm
    rcases List.mem_cons.mp hm with hh | hh
    · subst hh
      intro t
      rcases classifyObj_inv configs acc o h t with ⟨h1, h2, h3, _⟩
      exact ⟨h1, h2, h3⟩
    · exact ih _ (classifyObj_inv configs acc o h) m hh

theorem classifyObj_flags (configs : List StorageConfig) (acc : StatsMap × WorkMap)
    (obj : ListedObj) (hc : ∀ c ∈ configs, c.convert_to_intelligent = true)
    (h : ∀ t, ∀ w ∈ acc.2 t, w.convert_to_intelligent = true) :
    ∀ t, ∀ w ∈ (classifyObj configs acc obj).2 t, w.convert_to_intelligent = true := by
  cases hsc : obj.storageClass with
  | none => simpa [classifyObj, hsc] using h
  | some sc =>
    cases hf : configs.find? (fun c => sc == c.storage_class.value) with
    | none => simpa [classifyObj, hsc, hf] using h
    | some c =>
      have hcmem : c ∈ configs := List.mem_of_find?_eq_some hf
      intro t w hw
      simp only [classifyObj, hsc, hf] at hw
      by_cases ht : t = c.storage_class
      · subst ht
        simp only [setWork, if_pos rfl] at hw
        rcases List.mem_append.mp hw with hh | hh
        · exact h _ w hh
        · simp at hh
          rw [hh]
          exact hc c hcmem
      · simp only [setWork, if_neg ht] at hw
        exact h t w hw

theorem classifyRun_flags (configs : List StorageConfig) (listing : List ListedObj)
    (acc : StatsMap × WorkMap) (hc : ∀ c ∈ configs, c.convert_to_intelligent = true)
    (h : ∀ t, ∀ w ∈ acc.2 t, w.convert_to_intelligent = true) :
    ∀ t, ∀ w ∈ (classifyRun configs listing acc).2 t, w.convert_to_intelligent = true := by
  induction listing generalizing acc with
  | nil => exact h
  | cons o os ih =>
    rw [classifyRun]
    exact ih _ (classifyObj_flags configs acc o hc h)

/-! Facts about `initiate_restore_for_glacier_objects`. -/

theorem initiate_restore_eq_filter (restore : String → RestoreResult)
    (objs : List WorkItem) :
    initiate_restore_for_glacier_objects restore objs
      = objs.filter (fun o => (restore o.key).ok) := by
  induction objs with
  | nil => rfl
  | cons o os ih =>
    rw [initiate_restore_for_glacier_objects]
    cases hr : restore o.key <;>
      simp [List.filter_cons, hr, RestoreResult.ok, ih]

theorem configsOfParts_flags (parts : List String) :
    ∀ c ∈ configsOfParts parts, c.convert_to_intelligent = true := by
  induction parts with
  | nil => intro c hc; simp [configsOfParts] at hc
  | cons p ps ih =>
    intro c hc
    rw [configsOfParts] at hc
    cases hn : StorageClass.fromName (pyStrip p) with
    | none =>
      rw [hn] at hc
      exact ih c hc
    | some sc =>
      rw [hn] at hc
      rcases List.mem_cons.mp hc with hh | hh
      · rw [hh]
      · exact ih c hh

/-! Facts about the polling loop. -/

theorem mainLoop_nil (bucket : String) (head : Nat → String → HeadResult)
    (copyOk : String → Bool) (iv fuel r : Nat) (st : ConversionStats) :
    mainLoop bucket head copyOk iv fuel r [] st = ⟨[], st, [], 0, [], []⟩ := by
  cases fuel <;> rfl

/-- One executed round of the loop, with the membership filter of line 246
rewritten to the complement filter and the guard around the conversion
call collapsed. -/
theorem mainLoop_cons_eq (bucket : String) (head : Nat → String → HeadResult)
    (copyOk : String → Bool) (iv fuel r : Nat) (o : WorkItem) (os : List WorkItem)
    (st : ConversionStats) :
    mainLoop bucket head copyOk iv (fuel + 1) r (o :: os) st =
      (let restored := (o :: os).filter (fun x => headRestored (head r x.key))
       let stillPending := (o :: os).filter (fun x => !headRestored (head r x.key))
       let st1 := convert_to_intelligent_tiering copyOk restored st
       let rest := mainLoop bucket head copyOk iv fuel (r + 1) stillPending st1
       ⟨rest.pending, rest.stats,
         (Event.poll ((o :: os).map (fun x => x.key)) ::
           (if stillPending.isEmpty then [] else [Event.wait iv]) ++
           (if restored.isEmpty then []
            else [Event.convert (restored.map (fun x => x.key))])) :: rest.events,
         rest.rounds + 1,
         convertSnaps copyOk restored st ++ rest.snaps,
         (if restored.isEmpty then [] else convertCalls bucket restored) ++ rest.calls⟩) := by
  rw [mainLoop]
  simp only [check_restore_status, filter_not_mem_filter, convert_ite]

theorem mainLoop_counts (bucket : String) (head : Nat → String → HeadResult)
    (copyOk : String → Bool) (iv : Nat) :
    ∀ (fuel r : Nat) (pending : List WorkItem) (st : ConversionStats),
      (mainLoop bucket head copyOk iv fuel r pending st).stats.found = st.found ∧
      (mainLoop bucket head copyOk iv fuel r pending st).stats.outcomes +
          (mainLoop bucket head copyOk iv fuel r pending st).pending.length
        = st.outcomes + pending.length := by
  intro fuel
  induction fuel with
  | zero => intro r pending st; simp [mainLoop]
  | succ fuel ih =>
    intro r pending st
    cases pending with
    | nil => simp [mainLoop_nil]
    | cons o os =>
      rw [mainLoop_cons_eq]
      dsimp only
      have hre := length_filter_add_length_filter_not
        (fun x => headRestored (head r x.key)) (o :: os)
      have ihh := ih (r + 1) ((o :: os).filter (fun x => !headRestored (head r x.key)))
        (convert_to_intelligent_tiering copyOk
          ((o :: os).filter (fun x => headRestored (head r x.key))) st)
      rcases ihh with ⟨ih1, ih2⟩
      constructor
      · rw [ih1, convert_found]
      · rw [ih2, convert_outcomes]
        omega

theorem mainLoop_snaps (bucket : String) (head : Nat → String → HeadResult)
    (copyOk : String → Bool) (iv : Nat) :
    ∀ (fuel r : Nat) (pending : List WorkItem) (st : ConversionStats),
      ∀ s ∈ (mainLoop bucket head copyOk iv fuel r pending st).snaps,
        s.found = st.found ∧ s.outcomes ≤ st.outcomes + pending.length := by
  intro fuel
  induction fuel with
  | zero => intro r pending st s hs; simp [mainLoop] at hs
  | succ fuel ih =>
    intro r pending st s hs
    cases pending with
    | nil => rw [mainLoop_nil] at hs; simp at hs
    | cons o os =>
      rw [mainLoop_cons_eq] at hs
      dsimp only at hs
      have hre := length_filter_add_length_filter_not
        (fun x => headRestored (head r x.key)) (o :: os)
      have hrlen : ((o :: os).filter (fun x => headRestored (head r x.key))).length
          ≤ (o :: os).length := List.length_filter_le _ _
      rcases List.mem_append.mp hs with hh | hh
      · rcases convertSnaps_mem copyOk _ st s hh with ⟨h1, h2⟩
        exact ⟨h1, by omega⟩
      · rcases ih (r + 1) ((o :: os).filter (fun x => !headRestored (head r x.key)))
          (convert_to_intelligent_tiering copyOk
            ((o :: os).filter (fun x => headRestored (head r x.key))) st) s hh with ⟨h1, h2⟩
        rw [convert_found] at h1
        rw [convert_outcomes] at h2
        exact ⟨h1, by omega⟩

theorem mainLoop_skipped_of_flags (bucket : String) (head : Nat → String → HeadResult)
    (copyOk : String → Bool) (iv : Nat) :
    ∀ (fuel r : Nat) (pending : List WorkItem) (st : ConversionStats),
      (∀ o ∈ pending, o.convert_to_intelligent = true) →
      (mainLoop bucket head copyOk iv fuel r pending st).stats.skipped = st.skipped ∧
      ∀ s ∈ (mainLoop bucket head copyOk iv fuel r pending st).snaps,
        s.skipped = st.skipped := by
  intro fuel
  induction fuel with
  | zero => intro r pending st _; simp [mainLoop]
  | succ fuel ih =>
    intro r pending st hflags
    cases pending with
    | nil => simp [mainLoop_nil]
    | cons o os =>
      rw [mainLoop_cons_eq]
      dsimp only
      have hrfl : ∀ x ∈ (o :: os).filter (fun x => headRestored (head r x.key)),
          x.convert_to_intelligent = true :=
        fun x hx => hflags x (List.mem_of_mem_filter hx)
      have hpfl : ∀ x ∈ (o :: os).filter (fun x => !headRestored (head r x.key)),
          x.convert_to_intelligent = true :=
        fun x hx => hflags x (List.mem_of_mem_filter hx)
      have hconv := convert_skipped_of_flags copyOk
        ((o :: os).filter (fun x => headRestored (head r x.key))) st hrfl
      rcases ih (r + 1) ((o :: os).filter (fun x => !headRestored (head r x.key)))
        (convert_to_intelligent_tiering copyOk
          ((o :: os).filter (fun x => headRestored (head r x.key))) st) hpfl with ⟨ih1, ih2⟩
      constructor
      · rw [ih1, hconv]
      · intro s hs
        rcases List.mem_append.mp hs with hh | hh
        · exact convertSnaps_skipped_of_flags copyOk _ st hrfl s hh
        · rw [ih2 s hh, hconv]

theorem mainLoop_events_shape (bucket : String) (head : Nat → String → HeadResult)
    (copyOk : String → Bool) (iv : Nat) :
    ∀ (fuel r : Nat) (pending : List WorkItem) (st : ConversionStats),
      ∀ evs ∈ (mainLoop bucket head copyOk iv fuel r pending st).events,
        roundShape evs = true := by
  intro fuel
  induction fuel with
  | zero => intro r pending st evs h; simp [mainLoop] at h
  | succ fuel ih =>
    intro r pending st evs h
    cases pending with
    | nil => rw [mainLoop_nil] at h; simp at h
    | cons o os =>
      rw [mainLoop_cons_eq] at h
      dsimp only at h
      rcases List.mem_cons.mp h with hh | hh
      · subst hh
        by_cases h1 : ((o :: os).filter (fun x => !headRestored (head r x.key))).isEmpty <;>
          by_cases h2 : ((o :: os).filter (fun x => headRestored (head r x.key))).isEmpty <;>
            simp [h1, h2, roundShape]
      · exact ih (r + 1) _ _ evs hh

theorem stubHead_restored (n r : Nat) (k : String) :
    headRestored (stubHead n r k) = decide (n ≤ r) := by
  by_cases hr : n ≤ r <;> simp [stubHead, headRestored, hr]

theorem mainLoop_stub_single (bucket : String) (copyOk : String → Bool) (iv n : Nat)
    (w : WorkItem) (st : ConversionStats) :
    ∀ (fuel r : Nat), 1 ≤ r → r ≤ n → n + 1 - r ≤ fuel →
      (mainLoop bucket (stubHead n) copyOk iv fuel r [w] st).pending = [] ∧
      (mainLoop bucket (stubHead n) copyOk iv fuel r [w] st).rounds = n + 1 - r ∧
      (mainLoop bucket (stubHead n) copyOk iv fuel r [w] st).stats
        = convertStep copyOk st w := by
  intro fuel
  induction fuel with
  | zero => intro r h1 h2 h3; omega
  | succ fuel ih =>
    intro r h1 h2 h3
    rw [mainLoop_cons_eq]
    dsimp only
    simp only [stubHead_restored]
    by_cases hr : n ≤ r
    · have hrn : r = n := Nat.le_antisymm h2 hr
      simp only [hr, decide_True, List.filter_cons, List.filter_nil, Bool.not_true,
        if_pos, if_neg, ite_true, ite_false, Bool.false_eq_true, mainLoop_nil]
      subst hrn
      simp [convert_to_intelligent_tiering, mainLoop_nil]
    · have hrn : r < n := by omega
      simp only [hr, decide_False, List.filter_cons, List.filter_nil, Bool.not_false,
        ite_true, ite_false, Bool.false_eq_true, convert_to_intelligent_tiering]
      rcases ih (r + 1) (by omega) (by omega) (by omega) with ⟨g1, g2, g3⟩
      refine ⟨g1, ?_, g3⟩
      rw [g2]
      omega

theorem mainLoop_stub_single_underfuel (bucket : String) (copyOk : String → Bool)
    (iv n : Nat) (w : WorkItem) (st : ConversionStats) :
    ∀ (fuel r : Nat), fuel + r ≤ n →
      (mainLoop bucket (stubHead n) copyOk iv fuel r [w] st).pending = [w] := by
  intro fuel
  induction fuel with
  | zero => intro r _; rfl
  | succ fuel ih =>
    intro r hfr
    rw [mainLoop_cons_eq]
    dsimp only
    simp only [stubHead_restored]
    have hr : ¬ n ≤ r := by omega
    simp only [hr, decide_False, List.filter_cons, List.filter_nil, Bool.not_false,
      ite_true, ite_false, Bool.false_eq_true, convert_to_intelligent_tiering]
    exact ih (r + 1) (by omega)

theorem setStats_same (m : StatsMap) (t : StorageClass) (s : ConversionStats) :
    setStats m t s t = s := by
  simp [setStats]

theorem setStats_other (m : StatsMap) (t u : StorageClass) (s : ConversionStats)
    (h : u ≠ t) : setStats m t s u = m u := by
  simp [setStats, h]

/-! The claim theorems. -/

/-- C4: when the listing raises partway through pagination,
`process_glacier_objects` stops, returns an empty work mapping for every
tier, and pairs it with exactly the stats that the same prefix of the
listing accumulates on the successful path — the error is not propagated
and the partially built work lists are not returned. -/
theorem C4_listing_failure (configs : List StorageConfig) (listing : List ListedObj)
    (t : StorageClass) :
    (process_glacier_objects configs listing true).1 t = [] ∧
    (process_glacier_objects configs listing true).2 t
      = (process_glacier_objects configs listing false).2 t := by
  simp [process_glacier_objects, initWork]

/-- C5: a listed object whose storage class matches the first configured
policy `c` gets exactly one `found` increment on `c`'s tier and exactly one
work item appended under `c`'s tier, with every other tier and every other
counter untouched; an object without a `'StorageClass'` field, or whose
class matches no configured policy, changes nothing at all. -/
theorem C5_classifier_first_match (configs : List StorageConfig)
    (acc : StatsMap × WorkMap) (obj : ListedObj) :
    (∀ sc c, obj.storageClass = some sc →
      configs.find? (fun cf => sc == cf.storage_class.value) = some c →
      ((classifyObj configs acc obj).1 c.storage_class).found
          = (acc.1 c.storage_class).found + 1 ∧
      (classifyObj configs acc obj).2 c.storage_class
          = acc.2 c.storage_class
            ++ [{ key := obj.key, convert_to_intelligent := c.convert_to_intelligent }] ∧
      (∀ t, t ≠ c.storage_class → (classifyObj configs acc obj).1 t = acc.1 t ∧
        (classifyObj configs acc obj).2 t = acc.2 t) ∧
      (∀ t, ((classifyObj configs acc obj).1 t).converted = (acc.1 t).converted ∧
        ((classifyObj configs acc obj).1 t).failed = (acc.1 t).failed ∧
        ((classifyObj configs acc obj).1 t).skipped = (acc.1 t).skipped)) ∧
    (obj.storageClass = none → classifyObj configs acc obj = acc) ∧
    (∀ sc, obj.storageClass = some sc →
      configs.find? (fun cf => sc == cf.storage_class.value) = none →
      classifyObj configs acc obj = acc) := by
  refine ⟨?_, ?_, ?_⟩
  · intro sc c hsc hf
    refine ⟨?_, ?_, ?_, ?_⟩
    · simp [classifyObj, hsc, hf, setStats]
    · simp [classifyObj, hsc, hf, setWork]
    · intro t ht
      simp [classifyObj, hsc, hf, setStats, setWork, ht]
    · intro t
      by_cases ht : t = c.storage_class
      · subst ht
        simp [classifyObj, hsc, hf, setStats]
      · simp [classifyObj, hsc, hf, setStats, ht]
  · intro h
    simp [classifyObj, h]
  · intro sc hsc hf
    simp [classifyObj, hsc, hf]

/-- C6: the restore-request pass returns, in input order, exactly the items
whose `restore_object` call succeeded or answered
`RestoreAlreadyInProgress` (`RestoreResult.ok`); an item with any other
store error is absent from the returned pending list, so it is dropped for
the rest of the run, and an already-in-progress response leaves the item
in the same downstream position as a fresh success. -/
theorem C6_restore_request_outcomes (restore : String → RestoreResult)
    (objs : List WorkItem) :
    initiate_restore_for_glacier_objects restore objs
      = objs.filter (fun o => (restore o.key).ok) :=
  initiate_restore_eq_filter restore objs

/-- C7: over a conversion batch, `skipped` grows by exactly the number of
items with a false flag, `converted` by the number of flagged items whose
copy succeeds, `failed` by the number of flagged items whose copy errors,
the three outcome counters together grow by the full batch length (no
failure aborts the batch), and the copy calls issued are exactly one per
flagged item — an item with a false flag is never passed to the copy
operation. -/
theorem C7_convert_batch (copyOk : String → Bool) (bucket : String)
    (objs : List WorkItem) (st : ConversionStats) :
    (convert_to_intelligent_tiering copyOk objs st).skipped
        = st.skipped + objs.countP (fun o => !o.convert_to_intelligent) ∧
    (convert_to_intelligent_tiering copyOk objs st).converted
        = st.converted + objs.countP (fun o => o.convert_to_intelligent && copyOk o.key) ∧
    (convert_to_intelligent_tiering copyOk objs st).failed
        = st.failed + objs.countP (fun o => o.convert_to_intelligent && !copyOk o.key) ∧
    (convert_to_intelligent_tiering copyOk objs st).converted
        + (convert_to_intelligent_tiering copyOk objs st).failed
        + (convert_to_intelligent_tiering copyOk objs st).skipped
      = st.converted + st.failed + st.skipped + objs.length ∧
    convertCalls bucket objs
      = (objs.filter (fun o => o.convert_to_intelligent)).map (copyCallFor bucket) := by
  refine ⟨convert_skipped_count copyOk objs st, convert_converted_count copyOk objs st,
    convert_failed_count copyOk objs st, ?_, convertCalls_eq bucket objs⟩
  have h := convert_outcomes copyOk objs st
  unfold ConversionStats.outcomes at h
  omega

/-- C8: every copy call issued for conversion carries
`MetadataDirective='COPY'` (metadata preserved verbatim) and uses the
item's own bucket and key as both copy source and destination, so the
object's key is never altered. -/
theorem C8_copy_call_shape (bucket : String) (objs : List WorkItem) (c : CopyCall)
    (hc : c ∈ convertCalls bucket objs) :
    c.metadataDirective = "COPY" ∧ c.copySourceBucket = c.bucket ∧
    c.copySourceKey = c.key := by
  rw [convertCalls_eq] at hc
  rcases List.mem_map.mp hc with ⟨o, _, rfl⟩
  exact ⟨rfl, rfl, rfl⟩

/-- Witness for C8 at a concrete one-item batch. -/
theorem C8_witness :
    (copyCallFor "bkt" ⟨"k", true⟩).metadataDirective = "COPY" ∧
    (copyCallFor "bkt" ⟨"k", true⟩).copySourceBucket = (copyCallFor "bkt" ⟨"k", true⟩).bucket ∧
    (copyCallFor "bkt" ⟨"k", true⟩).copySourceKey = (copyCallFor "bkt" ⟨"k", true⟩).key :=
  C8_copy_call_shape "bkt" [⟨"k", true⟩] (copyCallFor "bkt" ⟨"k", true⟩) (by decide)

/-- C9: parsing `"GLACIER#BOGUS#GLACIER_IR"` yields exactly the GLACIER and
GLACIER_IR policies, in that order; the invalid token `BOGUS` is dropped
without an error. -/
theorem C9_tier_parsing :
    create_storage_configs "GLACIER#BOGUS#GLACIER_IR"
      = [{ storage_class := .GLACIER, convert_to_intelligent := true },
         { storage_class := .GLACIER_IR, convert_to_intelligent := true }] := by
  decide

/-- Witness for C5 at a concrete matching object. -/
theorem C5_witness :
    ((classifyObj [{ storage_class := .GLACIER, convert_to_intelligent := true }]
        (initStats, initWork) ⟨"k", some "GLACIER"⟩).1 StorageClass.GLACIER).found
      = ((initStats, initWork).1 StorageClass.GLACIER).found + 1 :=
  ((C5_classifier_first_match
      [{ storage_class := .GLACIER, convert_to_intelligent := true }]
      (initStats, initWork) ⟨"k", some "GLACIER"⟩).1 "GLACIER"
    { storage_class := .GLACIER, convert_to_intelligent := true } rfl (by decide)).1

/-- C2: the polling loop exits immediately when the pending set is empty,
and for a single pending item whose head-object stub reports the restore
finished from the `n`-th poll on (and unfinished before), the loop with
enough fuel performs exactly `n` rounds, ends with an empty pending set
and hands the item to the converter exactly once, while any fuel below `n`
leaves the item still pending. -/
theorem C2_poll_rounds (bucket : String) (copyOk : String → Bool) (iv : Nat)
    (w : WorkItem) (st : ConversionStats) (n fuel : Nat) (hn : 1 ≤ n) :
    (∀ (head : Nat → String → HeadResult) (fuel' r : Nat) (st' : ConversionStats),
      mainLoop bucket head copyOk iv fuel' r [] st' = ⟨[], st', [], 0, [], []⟩) ∧
    (n ≤ fuel →
      (mainLoop bucket (stubHead n) copyOk iv fuel 1 [w] st).rounds = n ∧
      (mainLoop bucket (stubHead n) copyOk iv fuel 1 [w] st).pending = [] ∧
      (mainLoop bucket (stubHead n) copyOk iv fuel 1 [w] st).stats
        = convertStep copyOk st w) ∧
    (fuel < n → (mainLoop bucket (stubHead n) copyOk iv fuel 1 [w] st).pending = [w]) := by
  refine ⟨fun head fuel' r st' => mainLoop_nil bucket head copyOk iv fuel' r st', ?_, ?_⟩
  · intro hf
    rcases mainLoop_stub_single bucket copyOk iv n w st fuel 1 (Nat.le_refl 1) hn
      (by omega) with ⟨g1, g2, g3⟩
    refine ⟨?_, g1, g3⟩
    rw [g2]
    omega
  · intro hf
    exact mainLoop_stub_single_underfuel bucket copyOk iv n w st fuel 1 (by omega)

/-- Witness for C2: with the restore reported finished on poll three, the
loop with fuel five performs exactly three rounds. -/
theorem C2_witness :
    (mainLoop "bkt" (stubHead 3) (fun _ => true) 3600 5 1
        [⟨"k", true⟩] ConversionStats.init).rounds = 3 :=
  ((C2_poll_rounds "bkt" (fun _ => true) 3600 ⟨"k", true⟩ ConversionStats.init 3 5
    (by decide)).2.1 (by decide)).1

/-- C3 as claimed is false on the code: with two pending items of which one
restores on the first poll, the first round's observable order is poll,
then the sleep of line 250, and only then the conversion of lines 252-254
— not conversion before the wait. -/
theorem C3_counterexample :
    ((mainLoop "bkt"
        (fun r k =>
          if 2 ≤ r ∨ k = "a" then HeadResult.ok true true else HeadResult.ok true false)
        (fun _ => true) 3600 5 1
        [⟨"a", true⟩, ⟨"b", true⟩] ConversionStats.init).events.all
      claimRoundShape) = false := by
  decide

/-- C3 (amended): within each executed round the order is poll all pending
items, partition, then — if any item remains pending — wait the fixed
interval, and only after that convert the round's restored items. -/
theorem C3_round_order (bucket : String) (head : Nat → String → HeadResult)
    (copyOk : String → Bool) (iv fuel r : Nat) (pending : List WorkItem)
    (st : ConversionStats) :
    ∀ evs ∈ (mainLoop bucket head copyOk iv fuel r pending st).events,
      roundShape evs = true :=
  mainLoop_events_shape bucket head copyOk iv fuel r pending st

/-- Witness for C3 at a one-item run whose single round polls and then
converts. -/
theorem C3_witness :
    roundShape [Event.poll ["k"], Event.convert ["k"]] = true :=
  C3_round_order "bkt" (fun _ _ => HeadResult.ok true true) (fun _ => true) 3600 1 1
    [⟨"k", true⟩] ConversionStats.init [Event.poll ["k"], Event.convert ["k"]] (by decide)

theorem glacier_ne_ir : StorageClass.GLACIER ≠ StorageClass.GLACIER_IR := by
  decide

theorem ir_ne_glacier : StorageClass.GLACIER_IR ≠ StorageClass.GLACIER := by
  decide

/-- C1 (amended): at every point of a run each configured tier satisfies
`converted + failed + skipped ≤ found`; and at run end — when the loop has
drained its pending set — provided the discovery listing completed without
error, `found` equals `converted + failed + skipped` plus the number of
items dropped by per-object restore-request errors. -/
theorem C1_stats_partition (bucket : String) (configs : List StorageConfig)
    (listing : List ListedObj) (listFails : Bool) (restore : String → RestoreResult)
    (head : Nat → String → HeadResult) (copyOk : String → Bool) (fuel : Nat)
    (tier : StorageClass) (hconf : tier ∈ configs.map (fun c => c.storage_class)) :
    (∀ m ∈ (runMain bucket configs listing listFails restore head copyOk fuel).snaps,
      (m tier).converted + (m tier).failed + (m tier).skipped ≤ (m tier).found) ∧
    (listFails = false →
      (runMain bucket configs listing listFails restore head copyOk fuel).loop.pending
          = [] →
      ((runMain bucket configs listing listFails restore head copyOk fuel).stats
          tier).found
        = ((runMain bucket configs listing listFails restore head copyOk fuel).stats
            tier).converted
          + ((runMain bucket configs listing listFails restore head copyOk fuel).stats
              tier).failed
          + ((runMain bucket configs listing listFails restore head copyOk fuel).stats
              tier).skipped
          + ((runMain bucket configs listing listFails restore head copyOk
              fuel).droppedFor tier).length) := by
  have hinv := classifyRun_inv configs listing (initStats, initWork) classInv_init
  cases listFails with
  | true =>
    refine ⟨?_, ?_⟩
    · intro m hm
      simp only [runMain, process_glacier_objects, if_pos, initWork, convertSnaps,
        initiate_restore_for_glacier_objects, mainLoop_nil, List.map_nil,
        List.append_nil] at hm
      rcases List.mem_cons.mp hm with hm0 | hm1
      · subst hm0
        simp [initStats, ConversionStats.init]
      · rcases classifyTrace_zero configs listing (initStats, initWork) classInv_init
          m hm1 tier with ⟨h1, h2, h3⟩
        rw [h1, h2, h3]
        simp
    · intro hlf
      simp at hlf
  | false =>
    refine ⟨?_, ?_⟩
    · intro m hm
      simp only [runMain, process_glacier_objects, Bool.false_eq_true, if_false,
        ite_false] at hm
      rcases List.mem_cons.mp hm with hm0 | hm1
      · subst hm0
        simp [initStats, ConversionStats.init]
      rcases List.mem_append.mp hm1 with hm2 | hmloop
      rcases List.mem_append.mp hm2 with hmclass | hmir
      · rcases classifyTrace_zero configs listing (initStats, initWork) classInv_init
          m hmclass tier with ⟨h1, h2, h3⟩
        rw [h1, h2, h3]
        simp
      · rcases List.mem_map.mp hmir with ⟨s, hs, rfl⟩
        rcases convertSnaps_mem copyOk _ _ s hs with ⟨hf, ho⟩
        cases tier with
        | GLACIER_IR =>
          rw [setStats_same]
          rcases hinv StorageClass.GLACIER_IR with ⟨z1, z2, z3, z4⟩
          unfold ConversionStats.outcomes at ho
          rw [hf, z4]
          omega
        | GLACIER =>
          rw [setStats_other _ _ _ _ glacier_ne_ir]
          rcases hinv StorageClass.GLACIER with ⟨z1, z2, z3, _⟩
          rw [z1, z2, z3]
          simp
      · rcases List.mem_map.mp hmloop with ⟨s, hs, rfl⟩
        rcases mainLoop_snaps bucket head copyOk 3600 fuel 1 _ _ s hs with ⟨hf, ho⟩
        have hst1g : setStats (classifyRun configs listing (initStats, initWork)).1
            StorageClass.GLACIER_IR
            (convert_to_intelligent_tiering copyOk
              ((classifyRun configs listing (initStats, initWork)).2
                StorageClass.GLACIER_IR)
              ((classifyRun configs listing (initStats, initWork)).1
                StorageClass.GLACIER_IR)) StorageClass.GLACIER
            = (classifyRun configs listing (initStats, initWork)).1
                StorageClass.GLACIER :=
          setStats_other _ _ _ _ glacier_ne_ir
        have hpendlen : (initiate_restore_for_glacier_objects restore
            ((classifyRun configs listing (initStats, initWork)).2
              StorageClass.GLACIER)).length
            ≤ ((classifyRun configs listing (initStats, initWork)).2
                StorageClass.GLACIER).length := by
          rw [initiate_restore_eq_filter]
          exact List.length_filter_le _ _
        cases tier with
        | GLACIER =>
          rw [setStats_same]
          rcases hinv StorageClass.GLACIER with ⟨z1, z2, z3, z4⟩
          rw [hst1g] at hf ho
          unfold ConversionStats.outcomes at ho
          rw [hf, z4]
          omega
        | GLACIER_IR =>
          rw [setStats_other _ _ _ _ ir_ne_glacier, setStats_same]
          have hcf := convert_found copyOk
            ((classifyRun configs listing (initStats, initWork)).2
              StorageClass.GLACIER_IR)
            ((classifyRun configs listing (initStats, initWork)).1
              StorageClass.GLACIER_IR)
          have hco := convert_outcomes copyOk
            ((classifyRun configs listing (initStats, initWork)).2
              StorageClass.GLACIER_IR)
            ((classifyRun configs listing (initStats, initWork)).1
              StorageClass.GLACIER_IR)
          rcases hinv StorageClass.GLACIER_IR with ⟨z1, z2, z3, z4⟩
          unfold ConversionStats.outcomes at hco
          rw [hcf, z4]
          omega
    · intro _ hpend
      simp only [runMain, process_glacier_objects, Bool.false_eq_true, if_false,
        ite_false] at hpend ⊢
      cases tier with
      | GLACIER_IR =>
        rw [setStats_other _ _ _ _ ir_ne_glacier, setStats_same]
        simp only [RunResult.droppedFor, List.length_nil]
        have hcf := convert_found copyOk
          ((classifyRun configs listing (initStats, initWork)).2
            StorageClass.GLACIER_IR)
          ((classifyRun configs listing (initStats, initWork)).1
            StorageClass.GLACIER_IR)
        have hco := convert_outcomes copyOk
          ((classifyRun configs listing (initStats, initWork)).2
            StorageClass.GLACIER_IR)
          ((classifyRun configs listing (initStats, initWork)).1
            StorageClass.GLACIER_IR)
        rcases hinv StorageClass.GLACIER_IR with ⟨z1, z2, z3, z4⟩
        unfold ConversionStats.outcomes at hco
        rw [hcf, z4]
        omega
      | GLACIER =>
        rw [setStats_same]
        simp only [RunResult.droppedFor]
        have hst1g : setStats (classifyRun configs listing (initStats, initWork)).1
            StorageClass.GLACIER_IR
            (convert_to_intelligent_tiering copyOk
              ((classifyRun configs listing (initStats, initWork)).2
                StorageClass.GLACIER_IR)
              ((classifyRun configs listing (initStats, initWork)).1
                StorageClass.GLACIER_IR)) StorageClass.GLACIER
            = (classifyRun configs listing (initStats, initWork)).1
                StorageClass.GLACIER :=
          setStats_other _ _ _ _ glacier_ne_ir
        rw [hst1g, initiate_restore_eq_filter] at hpend ⊢
        rcases mainLoop_counts bucket head copyOk 3600 fuel 1
          (List.filter (fun o => (restore o.key).ok)
            ((classifyRun configs listing (initStats, initWork)).2
              StorageClass.GLACIER))
          ((classifyRun configs listing (initStats, initWork)).1
            StorageClass.GLACIER) with ⟨hf, ho⟩
        rw [hpend] at ho
        have hsplit := length_filter_add_length_filter_not
          (fun o => (restore o.key).ok)
          ((classifyRun configs listing (initStats, initWork)).2 StorageClass.GLACIER)
        rcases hinv StorageClass.GLACIER with ⟨z1, z2, z3, z4⟩
        unfold ConversionStats.outcomes at ho
        simp only [List.length_nil] at ho
        rw [hf, z4]
        omega

/-- C1 as stated is false on the code: when the discovery listing raises
after one GLACIER_IR object was already classified, the run still
terminates (nothing is pending), yet the tier ends with `found = 1` while
`converted + failed + skipped` and the restore-error drops are all zero —
the work list built for the tier was discarded by the listing-failure
handler. -/
theorem C1_counterexample :
    (runMain "bkt" [{ storage_class := .GLACIER_IR, convert_to_intelligent := true }]
        [⟨"a", some "GLACIER_IR"⟩] true (fun _ => .success)
        (fun _ _ => HeadResult.ok true true) (fun _ => true) 1).loop.pending = [] ∧
    ¬ (((runMain "bkt" [{ storage_class := .GLACIER_IR, convert_to_intelligent := true }]
          [⟨"a", some "GLACIER_IR"⟩] true (fun _ => .success)
          (fun _ _ => HeadResult.ok true true) (fun _ => true) 1).stats
            StorageClass.GLACIER_IR).found
        = ((runMain "bkt" [{ storage_class := .GLACIER_IR, convert_to_intelligent := true }]
            [⟨"a", some "GLACIER_IR"⟩] true (fun _ => .success)
            (fun _ _ => HeadResult.ok true true) (fun _ => true) 1).stats
              StorageClass.GLACIER_IR).converted
          + ((runMain "bkt" [{ storage_class := .GLACIER_IR, convert_to_intelligent := true }]
              [⟨"a", some "GLACIER_IR"⟩] true (fun _ => .success)
              (fun _ _ => HeadResult.ok true true) (fun _ => true) 1).stats
                StorageClass.GLACIER_IR).failed
          + ((runMain "bkt" [{ storage_class := .GLACIER_IR, convert_to_intelligent := true }]
              [⟨"a", some "GLACIER_IR"⟩] true (fun _ => .success)
              (fun _ _ => HeadResult.ok true true) (fun _ => true) 1).stats
                StorageClass.GLACIER_IR).skipped
          + ((runMain "bkt" [{ storage_class := .GLACIER_IR, convert_to_intelligent := true }]
              [⟨"a", some "GLACIER_IR"⟩] true (fun _ => .success)
              (fun _ _ => HeadResult.ok true true) (fun _ => true) 1).droppedFor
                StorageClass.GLACIER_IR).length) := by
  refine ⟨by decide, by decide⟩

/-- Witness for C1 at the end-to-end scenario of the specification: three
listed objects (one GLACIER_IR, one GLACIER, one STANDARD), every restore
request and copy succeeding, the restore reported finished on the first
poll. -/
theorem C1_witness :
    ((runMain "bkt"
        [{ storage_class := .GLACIER, convert_to_intelligent := true },
         { storage_class := .GLACIER_IR, convert_to_intelligent := true }]
        [⟨"a", some "GLACIER_IR"⟩, ⟨"b", some "GLACIER"⟩, ⟨"c", some "STANDARD"⟩]
        false (fun _ => .success) (fun _ _ => HeadResult.ok true true)
        (fun _ => true) 2).stats StorageClass.GLACIER).found
      = ((runMain "bkt"
          [{ storage_class := .GLACIER, convert_to_intelligent := true },
           { storage_class := .GLACIER_IR, convert_to_intelligent := true }]
          [⟨"a", some "GLACIER_IR"⟩, ⟨"b", some "GLACIER"⟩, ⟨"c", some "STANDARD"⟩]
          false (fun _ => .success) (fun _ _ => HeadResult.ok true true)
          (fun _ => true) 2).stats StorageClass.GLACIER).converted
        + ((runMain "bkt"
            [{ storage_class := .GLACIER, convert_to_intelligent := true },
             { storage_class := .GLACIER_IR, convert_to_intelligent := true }]
            [⟨"a", some "GLACIER_IR"⟩, ⟨"b", some "GLACIER"⟩, ⟨"c", some "STANDARD"⟩]
            false (fun _ => .success) (fun _ _ => HeadResult.ok true true)
            (fun _ => true) 2).stats StorageClass.GLACIER).failed
        + ((runMain "bkt"
            [{ storage_class := .GLACIER, convert_to_intelligent := true },
             { storage_class := .GLACIER_IR, convert_to_intelligent := true }]
            [⟨"a", some "GLACIER_IR"⟩, ⟨"b", some "GLACIER"⟩, ⟨"c", some "STANDARD"⟩]
            false (fun _ => .success) (fun _ _ => HeadResult.ok true true)
            (fun _ => true) 2).stats StorageClass.GLACIER).skipped
        + ((runMain "bkt"
            [{ storage_class := .GLACIER, convert_to_intelligent := true },
             { storage_class := .GLACIER_IR, convert_to_intelligent := true }]
            [⟨"a", some "GLACIER_IR"⟩, ⟨"b", some "GLACIER"⟩, ⟨"c", some "STANDARD"⟩]
            false (fun _ => .success) (fun _ _ => HeadResult.ok true true)
            (fun _ => true) 2).droppedFor StorageClass.GLACIER).length :=
  (C1_stats_partition "bkt"
    [{ storage_class := .GLACIER, convert_to_intelligent := true },
     { storage_class := .GLACIER_IR, convert_to_intelligent := true }]
    [⟨"a", some "GLACIER_IR"⟩, ⟨"b", some "GLACIER"⟩, ⟨"c", some "STANDARD"⟩]
    false (fun _ => .success) (fun _ _ => HeadResult.ok true true) (fun _ => true) 2
    StorageClass.GLACIER (by decide)).2 rfl (by decide)

/-- Equality `setStats m t (m t) = m`:: writing back the entry just read is
the identity on the stats dictionary. -/
theorem setStats_id (m : StatsMap) (t : StorageClass) : setStats m t (m t) = m := by
  funext u
  by_cases h : u = t <;> simp [setStats, h]

theorem runMain_skipped_zero (bucket : String) (configs : List StorageConfig)
    (listing : List ListedObj) (listFails : Bool) (restore : String → RestoreResult)
    (head : Nat → String → HeadResult) (copyOk : String → Bool) (fuel : Nat)
    (tier : StorageClass) (hc : ∀ c ∈ configs, c.convert_to_intelligent = true) :
    (∀ t, ∀ w ∈ (runMain bucket configs listing listFails restore head copyOk
        fuel).work t, w.convert_to_intelligent = true) ∧
    (∀ m ∈ (runMain bucket configs listing listFails restore head copyOk fuel).snaps,
      (m tier).skipped = 0) ∧
    ((runMain bucket configs listing listFails restore head copyOk fuel).stats
        tier).skipped = 0 := by
  have hinv := classifyRun_inv configs listing (initStats, initWork) classInv_init
  have hwf := classifyRun_flags configs listing (initStats, initWork) hc
    (fun t w hw => by simp [initWork] at hw)
  cases listFails with
  | true =>
    refine ⟨?_, ?_, ?_⟩
    · intro t w hw
      simp only [runMain, process_glacier_objects, if_pos, initWork] at hw
      simp at hw
    · intro m hm
      simp only [runMain, process_glacier_objects, if_pos, initWork, convertSnaps,
        initiate_restore_for_glacier_objects, mainLoop_nil, List.map_nil,
        List.append_nil] at hm
      rcases List.mem_cons.mp hm with hm0 | hm1
      · subst hm0
        simp [initStats, ConversionStats.init]
      · exact ((classifyTrace_zero configs listing (initStats, initWork)
          classInv_init m hm1 tier).2).2
    · simp only [runMain, process_glacier_objects, if_pos, initWork,
        convert_to_intelligent_tiering, initiate_restore_for_glacier_objects,
        mainLoop_nil, setStats_id]
      exact ((hinv tier).2).2.1
  | false =>
    refine ⟨?_, ?_, ?_⟩
    · intro t w hw
      simp only [runMain, process_glacier_objects, Bool.false_eq_true, if_false,
        ite_false] at hw
      exact hwf t w hw
    · intro m hm
      simp only [runMain, process_glacier_objects, Bool.false_eq_true, if_false,
        ite_false] at hm
      rcases List.mem_cons.mp hm with hm0 | hm1
      · subst hm0
        simp [initStats, ConversionStats.init]
      rcases List.mem_append.mp hm1 with hm2 | hmloop
      rcases List.mem_append.mp hm2 with hmclass | hmir
      · exact ((classifyTrace_zero configs listing (initStats, initWork)
          classInv_init m hmclass tier).2).2
      · rcases List.mem_map.mp hmir with ⟨s, hs, rfl⟩
        have hsk := convertSnaps_skipped_of_flags copyOk
          ((classifyRun configs listing (initStats, initWork)).2 StorageClass.GLACIER_IR)
          ((classifyRun configs listing (initStats, initWork)).1 StorageClass.GLACIER_IR)
          (hwf StorageClass.GLACIER_IR) s hs
        cases tier with
        | GLACIER_IR =>
          rw [setStats_same, hsk]
          exact ((hinv StorageClass.GLACIER_IR).2).2.1
        | GLACIER =>
          rw [setStats_other _ _ _ _ glacier_ne_ir]
          exact ((hinv StorageClass.GLACIER).2).2.1
      · rcases List.mem_map.mp hmloop with ⟨s, hs, rfl⟩
        have hpfl : ∀ o ∈ initiate_restore_for_glacier_objects restore
            ((classifyRun configs listing (initStats, initWork)).2 StorageClass.GLACIER),
            o.convert_to_intelligent = true := by
          intro o ho
          rw [initiate_restore_eq_filter] at ho
          exact hwf StorageClass.GLACIER o (List.mem_of_mem_filter ho)
        have hsk := (mainLoop_skipped_of_flags bucket head copyOk 3600 fuel 1 _ _
          hpfl).2 s hs
        have hst1g : (setStats (classifyRun configs listing (initStats, initWork)).1
            StorageClass.GLACIER_IR
            (convert_to_intelligent_tiering copyOk
              ((classifyRun configs listing (initStats, initWork)).2
                StorageClass.GLACIER_IR)
              ((classifyRun configs listing (initStats, initWork)).1
                StorageClass.GLACIER_IR)) StorageClass.GLACIER).skipped
            = ((classifyRun configs listing (initStats, initWork)).1
                StorageClass.GLACIER).skipped := by
          rw [setStats_other _ _ _ _ glacier_ne_ir]
        cases tier with
        | GLACIER =>
          rw [setStats_same, hsk, hst1g]
          exact ((hinv StorageClass.GLACIER).2).2.1
        | GLACIER_IR =>
          rw [setStats_other _ _ _ _ ir_ne_glacier, setStats_same]
          rw [convert_skipped_of_flags copyOk _ _ (hwf StorageClass.GLACIER_IR)]
          exact ((hinv StorageClass.GLACIER_IR).2).2.1
    · simp only [runMain, process_glacier_objects, Bool.false_eq_true, if_false,
        ite_false]
      have hpfl : ∀ o ∈ initiate_restore_for_glacier_objects restore
          ((classifyRun configs listing (initStats, initWork)).2 StorageClass.GLACIER),
          o.convert_to_intelligent = true := by
        intro o ho
        rw [initiate_restore_eq_filter] at ho
        exact hwf StorageClass.GLACIER o (List.mem_of_mem_filter ho)
      have hsk := (mainLoop_skipped_of_flags bucket head copyOk 3600 fuel 1
        (initiate_restore_for_glacier_objects restore
          ((classifyRun configs listing (initStats, initWork)).2 StorageClass.GLACIER))
        (setStats (classifyRun configs listing (initStats, initWork)).1
          StorageClass.GLACIER_IR
          (convert_to_intelligent_tiering copyOk
            ((classifyRun configs listing (initStats, initWork)).2
              StorageClass.GLACIER_IR)
            ((classifyRun configs listing (initStats, initWork)).1
              StorageClass.GLACIER_IR)) StorageClass.GLACIER) hpfl).1
      cases tier with
      | GLACIER =>
        rw [setStats_same, hsk, setStats_other _ _ _ _ glacier_ne_ir]
        exact ((hinv StorageClass.GLACIER).2).2.1
      | GLACIER_IR =>
        rw [setStats_other _ _ _ _ ir_ne_glacier, setStats_same]
        rw [convert_skipped_of_flags copyOk _ _ (hwf StorageClass.GLACIER_IR)]
        exact ((hinv StorageClass.GLACIER_IR).2).2.1

/-- C10: every policy the configuration parser produces carries
`convert_to_intelligent = true` (line 198 hardcodes it), hence in a run
driven by `main` every classified work item carries a true flag and the
`skipped` counter of every tier is zero at every snapshot of the run and
in the final statistics. -/
theorem C10_skipped_stays_zero (cfgStr bucket : String) (listing : List ListedObj)
    (listFails : Bool) (restore : String → RestoreResult)
    (head : Nat → String → HeadResult) (copyOk : String → Bool) (fuel : Nat)
    (tier : StorageClass) :
    (∀ c ∈ create_storage_configs cfgStr, c.convert_to_intelligent = true) ∧
    (∀ t, ∀ w ∈ (runMain bucket (create_storage_configs cfgStr) listing listFails
        restore head copyOk fuel).work t, w.convert_to_intelligent = true) ∧
    (∀ m ∈ (runMain bucket (create_storage_configs cfgStr) listing listFails restore
        head copyOk fuel).snaps, (m tier).skipped = 0) ∧
    ((runMain bucket (create_storage_configs cfgStr) listing listFails restore head
        copyOk fuel).stats tier).skipped = 0 := by
  have hc : ∀ c ∈ create_storage_configs cfgStr, c.convert_to_intelligent = true :=
    fun c hcm => configsOfParts_flags (pySplit cfgStr) c hcm
  rcases runMain_skipped_zero bucket (create_storage_configs cfgStr) listing listFails
    restore head copyOk fuel tier hc with ⟨h1, h2, h3⟩
  exact ⟨hc, h1, h2, h3⟩

/-- Witness for C10 at a concrete run over the parsed configuration
`"GLACIER#GLACIER_IR"`. -/
theorem C10_witness :
    ((runMain "bkt" (create_storage_configs "GLACIER#GLACIER_IR")
        [⟨"a", some "GLACIER_IR"⟩, ⟨"b", some "GLACIER"⟩] false (fun _ => .success)
        (fun _ _ => HeadResult.ok true true) (fun _ => true) 2).stats
          StorageClass.GLACIER).skipped = 0 :=
  (C10_skipped_stays_zero "GLACIER#GLACIER_IR" "bkt"
    [⟨"a", some "GLACIER_IR"⟩, ⟨"b", some "GLACIER"⟩] false (fun _ => .success)
    (fun _ _ => HeadResult.ok true true) (fun _ => true) 2
    StorageClass.GLACIER).2.2.2

end ConvertGlacier
